import Mathlib

/-!
Shallow embedding of the mongo C++ client driver core, from
`src/util/sock.h` and `src/client/dbclient.h`, together with theorems
settling the specification claims about it.

Machine integers are modelled as `Nat` over their stored (raw) values:
the code compares `s_addr`, `sin_port` and `family` as plain integers,
so the theorems quantify over the stored values directly.  C strings
(`sun_path`, field names) are modelled as `String`; `strcmp` equality is
string equality and `strcmp < 0` is lexicographic order, matching byte
comparison on the ASCII data these fields hold.
-/

namespace Mongo

/-- Address family constants as on the Linux targets of this code. -/
def AF_UNIX : Nat := 1

/-- The internet address family constant. -/
def AF_INET : Nat := 2

/-- The wildcard bind address `INADDR_ANY` (value 0). -/
def INADDR_ANY : Nat := 0

/-- Host-to-network byte swap of a 16-bit value, as `htons` performs on the
little-endian hosts this code targets.  The `int` argument is first
truncated to 16 bits. -/
def htons (p : Nat) : Nat :=
  let q := p % 65536
  (q % 256) * 256 + q / 256

/-- Host-to-network byte swap of a 32-bit value (`htonl` on little-endian). -/
def htonl (x : Nat) : Nat :=
  let y := x % 4294967296
  (y % 256) * 16777216 + (y / 256 % 256) * 65536 + (y / 65536 % 256) * 256 +
    y / 16777216

/-- The stored 32-bit value of the loopback address 127.0.0.1, i.e. what
`inet_addr("127.0.0.1")` yields when read back as a host integer on the
little-endian hosts this code targets: bytes 127,0,0,1 in memory read as
the 32-bit value 0x100007f.  `SockAddr::isLocalHost` hard-codes this same
constant. -/
def inet_addr_loopback : Nat := 0x100007f

/-- The `mongo::SockAddr` struct from `src/util/sock.h`.  It always carries
an `int family`, a `sockaddr_in` (of which the code reads `sin_addr.s_addr`
and `sin_port`, both stored in network byte order) and a `sockaddr_un`
(of which the code reads the path `sun_path`). -/
structure SockAddr where
  family : Nat
  sin_addr : Nat
  sin_port : Nat
  sun_path : String
deriving DecidableEq, Repr

namespace SockAddr

/-- `SockAddr::isLocalHost` from `src/util/sock.h` lines 123-134:
`family == AF_UNIX` returns true; otherwise compare `s_addr` with the
literal `0x100007f`. -/
def isLocalHost (a : SockAddr) : Bool :=
  if a.family = AF_UNIX then true
  else a.sin_addr == 0x100007f

/-- `SockAddr::localhost` from `src/util/sock.h` lines 167-173:
`family == AF_UNIX` returns true; otherwise compare
`inet_addr("127.0.0.1")` with `s_addr`. -/
def localhost (a : SockAddr) : Bool :=
  if a.family = AF_UNIX then true
  else inet_addr_loopback == a.sin_addr

/-- `SockAddr::getPort` from `src/util/sock.h`: 0 for the unix family,
otherwise the raw stored `sin_port`. -/
def getPort (a : SockAddr) : Nat :=
  if a.family = AF_UNIX then 0 else a.sin_port

/-- `SockAddr::operator==` from `src/util/sock.h` lines 175-186:
different family compares false; unix family compares the paths with
`strcmp`; otherwise compare `s_addr` and `sin_port`. -/
def sockEq (a b : SockAddr) : Bool :=
  if a.family ≠ b.family then false
  else if a.family = AF_UNIX then a.sun_path == b.sun_path
  else a.sin_addr == b.sin_addr && a.sin_port == b.sin_port

/-- `SockAddr::operator!=` from `src/util/sock.h` lines 187-189:
the negation of `operator==`. -/
def sockNe (a b : SockAddr) : Bool :=
  ! sockEq a b

/-- `SockAddr::operator<` from `src/util/sock.h` lines 190-202.  Note the
networked branch as written: `if (si.sin_port >= r.si.sin_port) return
false; return si.sin_addr < r.si.sin_addr;` — it returns true only when
the port is strictly less AND the address is strictly less. -/
def sockLt (a b : SockAddr) : Bool :=
  if a.family < b.family then true
  else if b.family < a.family then false
  else if a.family = AF_UNIX then decide (a.sun_path < b.sun_path)
  else if b.sin_port ≤ a.sin_port then false
  else a.sin_addr < b.sin_addr

/-- The listener-side constructor `SockAddr::SockAddr(int sourcePort)` from
`src/util/sock.h` lines 265-272: family `AF_INET`, port `htons(sourcePort)`,
address `htonl(INADDR_ANY)`.  The `sockaddr_un` member is left
uninitialized by the code, so the arbitrary contents it holds are taken
here as the parameter `junkPath`. -/
def ofPort (sourcePort : Nat) (junkPath : String) : SockAddr :=
  { family := AF_INET
    sin_addr := htonl INADDR_ANY
    sin_port := htons sourcePort
    sun_path := junkPath }

/-- The remote-side constructor `SockAddr::SockAddr(const char*, int port)`
from `src/util/sock.h` lines 274-289.  `port == 0` builds a unix-domain
address whose path is the string; otherwise the host is resolved through
the external resolver (`hostbyname` composed with `inet_addr`, modelled
as the function argument `resolve` yielding the stored 32-bit address)
and a networked address with port `htons(port)` is built.  The member of
the union the taken branch does not write stays uninitialized; those
arbitrary contents are the `junk` parameters. -/
def ofHostPort (resolve : String → Nat) (iporhost : String) (port : Nat)
    (junkAddr junkPort : Nat) (junkPath : String) : SockAddr :=
  if port = 0 then
    { family := AF_UNIX
      sin_addr := junkAddr
      sin_port := junkPort
      sun_path := iporhost }
  else
    { family := AF_INET
      sin_addr := resolve iporhost
      sin_port := htons port
      sun_path := junkPath }

end SockAddr

/-- The query-options bits from `src/client/dbclient.h` lines 25-41. -/
def Option_CursorTailable : Nat := 2

/-- The slave-ok query-option bit from `src/client/dbclient.h`. -/
def Option_SlaveOk : Nat := 4

/-- The mask of all defined option bits from `src/client/dbclient.h`. -/
def Option_ALLMASK : Nat := 6

/-- The state of a `DBClientCursor` from `src/client/dbclient.h`, restricted
to the fields the claims read: the 64-bit cursor handle `cursorId`, the
batch bookkeeping, and the requested-options word `opts`. -/
structure DBClientCursor where
  cursorId : Int
  nReturned : Int
  pos : Int
  opts : Nat
deriving DecidableEq, Repr

namespace DBClientCursor

/-- `DBClientCursor::isDead` from `src/client/dbclient.h` line 98: a const
member function returning `cursorId == 0`.  Modelled as a state-passing
operation so that non-mutation is a provable statement: the result pairs
the returned boolean with the (unchanged) cursor state. -/
def isDead (c : DBClientCursor) : Bool × DBClientCursor :=
  (c.cursorId == 0, c)

/-- `DBClientCursor::tailable` from `src/client/dbclient.h` line 100:
`(opts & Option_CursorTailable) != 0`. -/
def tailable (c : DBClientCursor) : Bool :=
  c.opts &&& Option_CursorTailable != 0

end DBClientCursor

/-- A decoded document (`JSObj`), modelled by its field names in order —
all that `nextSafe` reads of it is the first element's field name. -/
structure JSObj where
  fields : List String
deriving DecidableEq, Repr

/-- The field name of `JSObj::firstElement()` (empty for an empty object). -/
def JSObj.firstElementFieldName (o : JSObj) : String :=
  o.fields.headD ""

/-- The possible outcomes of `DBClientCursor::nextSafe` as written in
`src/client/dbclient.h` lines 88-92.  The body calls `next()`, asserts the
first element's field name is not `"$err"`, and then ends; the function is
declared to return a `JSObj` but has no return statement, so there is no
outcome in which a document is handed back: either the assertion fires or
control falls off the end of the function. -/
inductive NextSafeOutcome where
  | assertionFailed
  | fellOffEnd
deriving DecidableEq, Repr

/-- `DBClientCursor::nextSafe` from `src/client/dbclient.h` lines 88-92, as
a function of the object `o` that the call to `next()` produced:
`assert( strcmp(e.fieldName(), "$err") != 0 )` fires exactly when the
first field is named `"$err"`; otherwise control reaches the end of the
function without returning a value. -/
def nextSafe (o : JSObj) : NextSafeOutcome :=
  if o.firstElementFieldName == "$err" then .assertionFailed
  else .fellOffEnd

/-- The master-selection state of `DBClientPaired` from
`src/client/dbclient.h` lines 179-183: `NotSetL=0`, `NotSetR=1`, `Left`,
`Right`. -/
inductive PairedState where
  | NotSetL
  | NotSetR
  | Left
  | Right
deriving DecidableEq, Repr

/-- `DBClientPaired::isntMaster` from `src/client/dbclient.h` lines 190-192
as written: the body is the single statement
`master == Left ? NotSetR : NotSetL;` — a conditional expression whose
value is computed and discarded (there is no assignment to `master`), so
the member `master` is left unchanged.  The dead expression is kept as
the discarded `let` binding. -/
def isntMaster (master : PairedState) : PairedState :=
  let _dead := if master = PairedState.Left then PairedState.NotSetR
               else PairedState.NotSetL
  master

/-! Helper lemmas shared by the claim theorems. -/

/-- Characterization of `SockAddr::operator==` as a proposition. -/
theorem sockEq_iff (a b : SockAddr) :
    SockAddr.sockEq a b = true ↔
      a.family = b.family ∧
        ((a.family = AF_UNIX ∧ a.sun_path = b.sun_path) ∨
         (a.family ≠ AF_UNIX ∧ a.sin_addr = b.sin_addr ∧
           a.sin_port = b.sin_port)) := by
  unfold SockAddr.sockEq
  by_cases h : a.family = b.family
  · by_cases hu : b.family = AF_UNIX <;> simp [h, hu]
  · simp [h]

/-- Characterization of `SockAddr::operator<` as a proposition. -/
theorem sockLt_iff (a b : SockAddr) :
    SockAddr.sockLt a b = true ↔
      (a.family < b.family ∨
       (a.family = b.family ∧ a.family = AF_UNIX ∧ a.sun_path < b.sun_path) ∨
       (a.family = b.family ∧ a.family ≠ AF_UNIX ∧
         a.sin_port < b.sin_port ∧ a.sin_addr < b.sin_addr)) := by
  unfold SockAddr.sockLt
  rcases Nat.lt_trichotomy a.family b.family with h | h | h
  · simp [h]
  · have hab : ¬ a.family < b.family := by omega
    by_cases hu : b.family = AF_UNIX
    · simp [h, hu, hab, lt_self_iff_false]
    · by_cases hp : b.sin_port ≤ a.sin_port
      · have hnp : ¬ a.sin_port < b.sin_port := by omega
        simp [h, hu, hab, hp, hnp, lt_self_iff_false]
      · have hpp : a.sin_port < b.sin_port := by omega
        simp [h, hu, hab, hp, hpp, lt_self_iff_false]
  · have hab : ¬ a.family < b.family := by omega
    have hne : a.family ≠ b.family := by omega
    simp [h, hab, hne]

/-! The claim theorems. -/

/-- Claim C1 (evaluation of the code at the failing inputs): as written,
`DBClientPaired::isntMaster` leaves the master state unchanged in all four
states — its body computes `master == Left ? NotSetR : NotSetL` and
discards the result, so in particular the confirmed states are NOT
demoted, contradicting the documented intent of a "not master"
notification handler. -/
theorem C1_isntMaster_leaves_state_unchanged :
    isntMaster PairedState.Left = PairedState.Left ∧
    isntMaster PairedState.Right = PairedState.Right ∧
    isntMaster PairedState.NotSetL = PairedState.NotSetL ∧
    isntMaster PairedState.NotSetR = PairedState.NotSetR := by
  decide

/-- Claim C3: `isDead()` returns true exactly when the cursor handle is 0,
leaves the cursor state unchanged, and two consecutive calls yield the
same result. -/
theorem C3_isDead_pure (c : DBClientCursor) :
    (c.isDead.1 = (c.cursorId == 0)) ∧ c.isDead.2 = c ∧
      c.isDead.2.isDead.1 = c.isDead.1 :=
  ⟨rfl, rfl, rfl⟩

/-- Claim C4 (evaluation of the code at the failing input): `nextSafe` as
written never returns a document.  On a non-error document (first field
not named the error marker) control falls off the end of the non-void
function with no return statement, instead of returning the document as
specified; on an error document the assertion fires, as specified. -/
theorem C4_nextSafe_never_returns_document :
    nextSafe (JSObj.mk ["name", "address"]) = NextSafeOutcome.fellOffEnd ∧
    nextSafe (JSObj.mk ["$err"]) = NextSafeOutcome.assertionFailed := by
  decide

/-- Claim C6: the is-loopback predicate `isLocalHost` is true
unconditionally for local-domain endpoints, and for networked endpoints it
is true exactly when the stored address is the loopback address. -/
theorem C6_isLocalHost_spec (a : SockAddr) :
    (a.family = AF_UNIX → a.isLocalHost = true) ∧
    (a.family = AF_INET →
      (a.isLocalHost = true ↔ a.sin_addr = inet_addr_loopback)) := by
  constructor
  · intro h
    simp [SockAddr.isLocalHost, h]
  · intro h
    have hne : a.family ≠ AF_UNIX := by
      rw [h]; decide
    simp [SockAddr.isLocalHost, hne, inet_addr_loopback]

/-- Witness for C6 at concrete endpoints: a local-domain endpoint with a
non-loopback stored address, and a networked endpoint holding the
loopback address. -/
theorem C6_witness :
    (SockAddr.mk AF_UNIX 7 7 "/tmp/mongo.sock").isLocalHost = true ∧
    (SockAddr.mk AF_INET inet_addr_loopback 5 "x").isLocalHost = true :=
  ⟨(C6_isLocalHost_spec _).1 rfl,
   ((C6_isLocalHost_spec (SockAddr.mk AF_INET inet_addr_loopback 5 "x")).2
      rfl).mpr rfl⟩

/-- Claim C8: the option bitmask gives the tailable option value 2 (bit 1)
and the slaveOk option value 4 (bit 2), and `tailable()` returns true
exactly when bit 1 is set in the cursor's requested-options word. -/
theorem C8_option_bits (c : DBClientCursor) :
    Option_CursorTailable = 2 ∧ Option_SlaveOk = 4 ∧
      c.tailable = c.opts.testBit 1 := by
  refine ⟨rfl, rfl, ?_⟩
  have h : c.opts &&& 2 = (c.opts.testBit 1).toNat * 2 := by
    simpa using Nat.and_two_pow c.opts 1
  unfold DBClientCursor.tailable Option_CursorTailable
  rw [h]
  cases c.opts.testBit 1 <;> simp

/-- Claim C9: the two loopback predicates `isLocalHost()` and `localhost()`
return the same boolean on every endpoint value. -/
theorem C9_loopback_predicates_agree (a : SockAddr) :
    a.isLocalHost = a.localhost := by
  unfold SockAddr.isLocalHost SockAddr.localhost inet_addr_loopback
  split
  · rfl
  · rw [Bool.eq_iff_iff, beq_iff_eq, beq_iff_eq]
    exact eq_comm

/-- Claim C10: endpoint equality is reflexive and symmetric, and the
inequality operator returns exactly the negation of the equality
operator. -/
theorem C10_equality_props (a b : SockAddr) :
    SockAddr.sockEq a a = true ∧
      SockAddr.sockEq a b = SockAddr.sockEq b a ∧
      SockAddr.sockNe a b = ! SockAddr.sockEq a b := by
  refine ⟨?_, ?_, rfl⟩
  · rw [sockEq_iff]
    refine ⟨rfl, ?_⟩
    by_cases hu : a.family = AF_UNIX
    · exact Or.inl ⟨hu, rfl⟩
    · exact Or.inr ⟨hu, rfl, rfl⟩
  · rw [Bool.eq_iff_iff, sockEq_iff, sockEq_iff]
    constructor <;> rintro ⟨h1, h2 | h2⟩
    · exact ⟨h1.symm, Or.inl ⟨h1 ▸ h2.1, h2.2.symm⟩⟩
    · exact ⟨h1.symm, Or.inr ⟨h1 ▸ h2.1, h2.2.1.symm, h2.2.2.symm⟩⟩
    · exact ⟨h1.symm, Or.inl ⟨h1 ▸ h2.1, h2.2.symm⟩⟩
    · exact ⟨h1.symm, Or.inr ⟨h1 ▸ h2.1, h2.2.1.symm, h2.2.2.symm⟩⟩

/-- Claim C5: two local-domain endpoints are equal exactly when their path
strings are equal, regardless of the other stored fields, and a
local-domain endpoint never equals a networked endpoint, in either
order. -/
theorem C5_unix_equality (a b : SockAddr) :
    (a.family = AF_UNIX → b.family = AF_UNIX →
      (SockAddr.sockEq a b = true ↔ a.sun_path = b.sun_path)) ∧
    (a.family = AF_UNIX → b.family = AF_INET →
      SockAddr.sockEq a b = false) ∧
    (a.family = AF_INET → b.family = AF_UNIX →
      SockAddr.sockEq a b = false) := by
  refine ⟨?_, ?_, ?_⟩
  · intro ha hb
    rw [sockEq_iff]
    constructor
    · rintro ⟨_, ⟨_, hp⟩ | ⟨hn, _⟩⟩
      · exact hp
      · exact absurd ha hn
    · intro hp
      exact ⟨ha.trans hb.symm, Or.inl ⟨ha, hp⟩⟩
  · intro ha hb
    rw [Bool.eq_false_iff]
    intro hq
    have hf := (sockEq_iff a b).mp hq |>.1
    rw [ha, hb] at hf
    exact absurd hf (by decide)
  · intro ha hb
    rw [Bool.eq_false_iff]
    intro hq
    have hf := (sockEq_iff a b).mp hq |>.1
    rw [ha, hb] at hf
    exact absurd hf (by decide)

/-- Witness for C5 at concrete endpoints: equal paths with differing
networked fields compare equal; cross-family endpoints compare unequal in
both orders. -/
theorem C5_witness :
    SockAddr.sockEq (SockAddr.mk AF_UNIX 1 2 "/tmp/a")
        (SockAddr.mk AF_UNIX 3 4 "/tmp/a") = true ∧
    SockAddr.sockEq (SockAddr.mk AF_UNIX 0 0 "/tmp/a")
        (SockAddr.mk AF_INET 0 0 "/tmp/a") = false ∧
    SockAddr.sockEq (SockAddr.mk AF_INET 0 0 "p")
        (SockAddr.mk AF_UNIX 0 0 "p") = false :=
  ⟨((C5_unix_equality (SockAddr.mk AF_UNIX 1 2 "/tmp/a")
      (SockAddr.mk AF_UNIX 3 4 "/tmp/a")).1 rfl rfl).mpr rfl,
   (C5_unix_equality (SockAddr.mk AF_UNIX 0 0 "/tmp/a")
      (SockAddr.mk AF_INET 0 0 "/tmp/a")).2.1 rfl rfl,
   (C5_unix_equality (SockAddr.mk AF_INET 0 0 "p")
      (SockAddr.mk AF_UNIX 0 0 "p")).2.2 rfl rfl⟩

/-- Claim C7: construction from a port alone yields a networked
wildcard-bind address with that port; from a host string and port 0, a
local-domain endpoint whose path is the string; from a host string and a
nonzero port, a networked endpoint with the resolver's address and that
port (ports stored through `htons`, as the code stores them). -/
theorem C7_construction_dispatch (resolve : String → Nat)
    (sourcePort port junkAddr junkPort : Nat) (host junkPath : String)
    (hport : port ≠ 0) :
    ((SockAddr.ofPort sourcePort junkPath).family = AF_INET ∧
     (SockAddr.ofPort sourcePort junkPath).sin_addr = INADDR_ANY ∧
     (SockAddr.ofPort sourcePort junkPath).sin_port = htons sourcePort) ∧
    ((SockAddr.ofHostPort resolve host 0 junkAddr junkPort junkPath).family
        = AF_UNIX ∧
     (SockAddr.ofHostPort resolve host 0 junkAddr junkPort junkPath).sun_path
        = host) ∧
    ((SockAddr.ofHostPort resolve host port junkAddr junkPort
        junkPath).family = AF_INET ∧
     (SockAddr.ofHostPort resolve host port junkAddr junkPort
        junkPath).sin_addr = resolve host ∧
     (SockAddr.ofHostPort resolve host port junkAddr junkPort
        junkPath).sin_port = htons port) := by
  unfold SockAddr.ofPort SockAddr.ofHostPort
  refine ⟨⟨rfl, rfl, rfl⟩, ?_, ?_⟩
  · simp
  · simp [hport]

/-- Witness for C7 at concrete inputs: listening port 27017, host
"db.example.com" with ports 0 and 27017, and a resolver returning a fixed
address. -/
theorem C7_witness :
    ((SockAddr.ofPort 27017 "j").family = AF_INET ∧
     (SockAddr.ofPort 27017 "j").sin_addr = INADDR_ANY ∧
     (SockAddr.ofPort 27017 "j").sin_port = htons 27017) ∧
    ((SockAddr.ofHostPort (fun _ => 16777343) "db.example.com" 0 5 6
        "j").family = AF_UNIX ∧
     (SockAddr.ofHostPort (fun _ => 16777343) "db.example.com" 0 5 6
        "j").sun_path = "db.example.com") ∧
    ((SockAddr.ofHostPort (fun _ => 16777343) "db.example.com" 27017 5 6
        "j").family = AF_INET ∧
     (SockAddr.ofHostPort (fun _ => 16777343) "db.example.com" 27017 5 6
        "j").sin_addr = 16777343 ∧
     (SockAddr.ofHostPort (fun _ => 16777343) "db.example.com" 27017 5 6
        "j").sin_port = htons 27017) :=
  C7_construction_dispatch (fun _ => 16777343) 27017 27017 5 6
    "db.example.com" "j" (by decide)

/-- Claim C2 counterexample: two distinct networked endpoints, the first
with the smaller address but the larger stored port.  Neither is less
than the other under `operator<`, so the relation is not total on
distinct endpoints; an address-then-port order would make the first less
than the second. -/
theorem C2_counterexample :
    SockAddr.sockLt (SockAddr.mk AF_INET 1 2 "")
      (SockAddr.mk AF_INET 2 1 "") = false ∧
    SockAddr.sockLt (SockAddr.mk AF_INET 2 1 "")
      (SockAddr.mk AF_INET 1 2 "") = false ∧
    SockAddr.sockEq (SockAddr.mk AF_INET 1 2 "")
      (SockAddr.mk AF_INET 2 1 "") = false ∧
    SockAddr.mk AF_INET 1 2 "" ≠ SockAddr.mk AF_INET 2 1 "" := by
  decide

/-- Claim C2 as amended: `operator<` is a strict order — irreflexive,
transitive and asymmetric — comparing first by family, then by path for
local-domain endpoints; but on two networked endpoints of the same family
it holds exactly when BOTH the stored port and the stored address are
strictly less, so it is not total: distinct endpoints can be mutually
incomparable. -/
theorem C2_amended_strict_order (a b c : SockAddr) :
    SockAddr.sockLt a a = false ∧
    (SockAddr.sockLt a b = true → SockAddr.sockLt b c = true →
      SockAddr.sockLt a c = true) ∧
    (SockAddr.sockLt a b = true → SockAddr.sockLt b a = false) ∧
    (a.family ≠ b.family →
      (SockAddr.sockLt a b = true ↔ a.family < b.family)) ∧
    (a.family = b.family → a.family = AF_UNIX →
      (SockAddr.sockLt a b = true ↔ a.sun_path < b.sun_path)) ∧
    (a.family = b.family → a.family ≠ AF_UNIX →
      (SockAddr.sockLt a b = true ↔
        a.sin_port < b.sin_port ∧ a.sin_addr < b.sin_addr)) := by
  refine ⟨?_, ?_, ?_, ?_, ?_, ?_⟩
  · rw [Bool.eq_false_iff]
    intro h
    rw [sockLt_iff] at h
    rcases h with h | ⟨_, _, p⟩ | ⟨_, _, q, _⟩
    · omega
    · exact absurd p (lt_irrefl _)
    · omega
  · intro h1 h2
    rw [sockLt_iff] at h1 h2 ⊢
    rcases h1 with h1 | ⟨e1, u1, p1⟩ | ⟨e1, u1, q1, r1⟩ <;>
      rcases h2 with h2 | ⟨e2, u2, p2⟩ | ⟨e2, u2, q2, r2⟩
    · exact Or.inl (by omega)
    · exact Or.inl (by omega)
    · exact Or.inl (by omega)
    · exact Or.inl (by omega)
    · exact Or.inr (Or.inl ⟨e1.trans e2, u1, lt_trans p1 p2⟩)
    · exact absurd (e1.symm.trans u1) u2
    · exact Or.inl (by omega)
    · exact absurd (e1.trans u2) u1
    · exact Or.inr (Or.inr ⟨e1.trans e2, u1, by omega, by omega⟩)
  · intro h1
    rw [Bool.eq_false_iff]
    intro h2
    rw [sockLt_iff] at h1 h2
    rcases h1 with h1 | ⟨e1, u1, p1⟩ | ⟨e1, u1, q1, r1⟩ <;>
      rcases h2 with h2 | ⟨e2, u2, p2⟩ | ⟨e2, u2, q2, r2⟩ <;>
      first
        | omega
        | exact absurd p2 (lt_asymm p1)
  · intro hne
    rw [sockLt_iff]
    constructor
    · rintro (h | ⟨e, _⟩ | ⟨e, _⟩)
      · exact h
      · exact absurd e hne
      · exact absurd e hne
    · exact fun h => Or.inl h
  · intro he hu
    rw [sockLt_iff]
    constructor
    · rintro (h | ⟨_, _, p⟩ | ⟨_, nu, _⟩)
      · omega
      · exact p
      · exact absurd hu nu
    · exact fun hp => Or.inr (Or.inl ⟨he, hu, hp⟩)
  · intro he hnu
    rw [sockLt_iff]
    constructor
    · rintro (h | ⟨_, u, _⟩ | ⟨_, _, q, r⟩)
      · omega
      · exact absurd u hnu
      · exact ⟨q, r⟩
    · exact fun hp => Or.inr (Or.inr ⟨he, hnu, hp.1, hp.2⟩)

/-- Witness for the amended C2 at concrete endpoints: a pair ordered in
both port and address is less; transitivity and asymmetry applied at that
pair. -/
theorem C2_amended_witness :
    SockAddr.sockLt (SockAddr.mk AF_INET 1 1 "")
      (SockAddr.mk AF_INET 3 3 "") = true ∧
    SockAddr.sockLt (SockAddr.mk AF_INET 2 2 "")
      (SockAddr.mk AF_INET 1 1 "") = false := by
  have h := C2_amended_strict_order (SockAddr.mk AF_INET 1 1 "")
    (SockAddr.mk AF_INET 2 2 "") (SockAddr.mk AF_INET 3 3 "")
  have h2 := C2_amended_strict_order (SockAddr.mk AF_INET 1 1 "")
    (SockAddr.mk AF_INET 2 2 "") (SockAddr.mk AF_INET 2 2 "")
  exact ⟨h.2.1 (by decide) (by decide), h2.2.2.1 (by decide)⟩

end Mongo
